import Mathlib

/-!
# NTrip relay: a shallow embedding of the stream-distribution core

This file embeds the NTrip repository's stream-distribution core in Lean 4:

* the NTRIP client (`NtripClient.Connect`): request building, handshake
  against the server greeting, and the data-relay loop that copies chunks
  to the output file and to stdout;
* the NTRIP server (`NtripServer`): `initSerial`/`Start` startup,
  `readSerialData` (the broadcast loop), `acceptConnections`,
  `handleClient`, modelled both as sequential functions and, for the
  concurrency claims, as a small interleaving transition system over the
  shared subscriber registry.

Go byte strings are modelled as `List Nat` (byte values) or `String`
where the source works with string literals; fallible I/O operations are
driven by explicit environments recording each call's success or result.
-/

namespace NTrip

/-! ## Client side: request construction

Embeds `NtripClient.Connect`, lines 283-289 of the client source: the
request line, the conditional Authorization header (added only when both
username and password are non-empty, with value `user:pass` verbatim),
the User-Agent header and the closing blank line. -/

def buildRequest (mountpoint username password : String) : String :=
  let req := "GET /" ++ mountpoint ++ " HTTP/1.0\r\n"
  let req :=
    if username ≠ "" ∧ password ≠ "" then
      req ++ "Authorization: Basic " ++ (username ++ ":" ++ password) ++ "\r\n"
    else req
  req ++ "User-Agent: NTRIP Client\r\n" ++ "Connection: close\r\n\r\n"

/-- The value the code places after `Authorization: Basic ` (client
source line 285): the colon-joined credentials, with no encoding. -/
def authValue (username password : String) : String :=
  username ++ ":" ++ password

/-- The bytes of an ASCII string (every string this development applies
it to is ASCII, where Go's byte view and the char view coincide). -/
def strBytes (s : String) : List Nat :=
  s.data.map Char.toNat

/-- Modelled from the spec: the base64 alphabet, for the spec's
`base64(user:pass)` header value (spec §6, wire protocol). -/
def base64Alphabet : List Char :=
  "ABCDEFGHIJKLMNOPQRSTUVWXYZabcdefghijklmnopqrstuvwxyz0123456789+/".data

/-- Modelled from the spec: character `i` of the base64 alphabet. -/
def base64Digit (i : Nat) : Char :=
  base64Alphabet.getD i '?'

/-- Modelled from the spec: standard base64 encoding of a byte list,
with `=` padding, used only to state what the spec's
`Authorization: Basic <base64(user:pass)>` header would contain. -/
def base64Encode : List Nat → String
  | [] => ""
  | [a] =>
    let n := a % 256 * 65536
    String.mk [base64Digit (n / 262144 % 64), base64Digit (n / 4096 % 64), '=', '=']
  | [a, b] =>
    let n := a % 256 * 65536 + b % 256 * 256
    String.mk [base64Digit (n / 262144 % 64), base64Digit (n / 4096 % 64),
      base64Digit (n / 64 % 64), '=']
  | a :: b :: c :: rest =>
    let n := a % 256 * 65536 + b % 256 * 256 + c % 256
    String.mk [base64Digit (n / 262144 % 64), base64Digit (n / 4096 % 64),
      base64Digit (n / 64 % 64), base64Digit (n % 64)] ++ base64Encode rest

/-! ## Client side: `Connect`

`NtripClient.Connect` (client source lines 267-343) is a sequence of
fallible steps: dial, create the output file, write the request, read
the first response chunk, check its first three bytes against `ICY`,
re-create the output file, then loop copying chunks to the file and to
stdout.  Each step's outcome is supplied by a `ConnectEnv`; the file
system is threaded explicitly so that the on-disk effect of each path is
visible. -/

/-- The byte values of the three-byte greeting marker `ICY`. -/
def icyMarker : List Nat := [73, 67, 89]

/-- One result of a `conn.Read` in the client's relay loop: end of
stream, a read error, or a chunk of bytes. -/
inductive ChunkRes where
  | eofRes : ChunkRes
  | errRes : ChunkRes
  | dataRes : List Nat → ChunkRes
deriving DecidableEq, Repr

/-- The environment driving one run of `Connect`: whether the dial, the
two file creations and the request write succeed, what the first
response read returns (`none` = read error), and the sequence of relay
reads. -/
structure ConnectEnv where
  dialOk : Bool
  createOk : Bool
  writeReqOk : Bool
  readResp : Option (List Nat)
  createOk2 : Bool
  fileWriteOk : Bool
  dataReads : List ChunkRes
deriving Repr

/-- How one run of `Connect` ended.  `panicSlice` is the runtime panic
raised by `response[:3]` when the response holds fewer than three
bytes; `incomplete` marks an exhausted read-event script (the real loop
would still be running). -/
inductive ConnectOutcome where
  | okDone
  | errDial
  | errCreate
  | errWriteReq
  | errReadResp
  | errBadResp
  | panicSlice
  | errCreate2
  | errData
  | errFileWrite
  | incomplete
deriving DecidableEq, Repr

/-- A flat file system: file names mapped to byte contents. -/
structure FS where
  files : List (String × List Nat)
deriving Repr

/-- `os.Create`: truncating creation (existing content discarded). -/
def FS.create (fs : FS) (name : String) : FS :=
  ⟨(name, []) :: fs.files.filter (fun p => p.1 ≠ name)⟩

/-- Append bytes to an existing file. -/
def FS.append (fs : FS) (name : String) (bytes : List Nat) : FS :=
  ⟨fs.files.map (fun p => if p.1 = name then (p.1, p.2 ++ bytes) else p)⟩

/-- Look up a file's content. -/
def FS.lookup (fs : FS) (name : String) : Option (List Nat) :=
  (fs.files.find? (fun p => p.1 = name)).map Prod.snd

/-- The observable result of a `Connect` run: how it ended, the final
file system, whether the TCP connection ended closed (the deferred
`conn.Close`), the chunks written to the output file and the chunks
mirrored to stdout. -/
structure ConnectResult where
  outcome : ConnectOutcome
  fs : FS
  connClosed : Bool
  sinkWrites : List (List Nat)
  stdoutWrites : List (List Nat)
deriving Repr

/-- The relay loop of `Connect` (client source lines 319-340): each read
either ends the stream (`EOF`: clean stop), fails (error return), or
yields a chunk which is appended to the RTCM file and mirrored to
stdout. -/
def dataLoop (out : String) (fileWriteOk : Bool) :
    List ChunkRes → FS → List (List Nat) → List (List Nat) → ConnectResult
  | [], fs, ws, ss => ⟨.incomplete, fs, true, ws, ss⟩
  | ChunkRes.eofRes :: _, fs, ws, ss => ⟨.okDone, fs, true, ws, ss⟩
  | ChunkRes.errRes :: _, fs, ws, ss => ⟨.errData, fs, true, ws, ss⟩
  | ChunkRes.dataRes b :: rest, fs, ws, ss =>
    if fileWriteOk then
      dataLoop out fileWriteOk rest (fs.append out b) (ws ++ [b]) (ss ++ [b])
    else ⟨.errFileWrite, fs, true, ws, ss⟩

/-- `NtripClient.Connect` (client source lines 267-343).  The order of
effects follows the source: dial; create (truncate) the output file;
send the request; read the first response chunk; slice its first three
bytes (a panic when fewer than three arrived); compare with `ICY`;
re-create the output file; relay loop. -/
def connect (out : String) (env : ConnectEnv) (fs0 : FS) : ConnectResult :=
  if ¬ env.dialOk then ⟨.errDial, fs0, false, [], []⟩
  else if ¬ env.createOk then ⟨.errCreate, fs0, true, [], []⟩
  else
    let fs1 := fs0.create out
    if ¬ env.writeReqOk then ⟨.errWriteReq, fs1, true, [], []⟩
    else
      match env.readResp with
      | none => ⟨.errReadResp, fs1, true, [], []⟩
      | some resp =>
        if resp.length < 3 then ⟨.panicSlice, fs1, true, [], []⟩
        else if resp.take 3 ≠ icyMarker then ⟨.errBadResp, fs1, true, [], []⟩
        else if ¬ env.createOk2 then ⟨.errCreate2, fs1, true, [], []⟩
        else dataLoop out env.fileWriteOk env.dataReads (fs1.create out) [] []

/-! ## Server side: startup

`NtripServer.initSerial` (server source lines 52-79) validates the
parity letter, then opens the serial port; `NtripServer.Start` (lines
81-103) runs `initSerial`, then listens on TCP, then spawns the
`readSerialData` and `acceptConnections` tasks.  The resource state
records which handles are open; note that no path closes the serial
port on a later failure. -/

/-- Which startup step failed. -/
inductive StartErr where
  | invalidParity
  | openSerialFailed
  | listenFailed
deriving DecidableEq, Repr

/-- Open-handle and task state of the server process. -/
structure ServerRes where
  serialOpen : Bool
  listenerOpen : Bool
  readTaskStarted : Bool
  acceptTaskStarted : Bool
deriving DecidableEq, Repr

/-- The state before `Start`: nothing open, nothing running. -/
def ServerRes.idle : ServerRes := ⟨false, false, false, false⟩

/-- `NtripServer.initSerial`: the parity switch admits exactly `"N"`,
`"E"` and `"O"` (default case errors before the port is opened); then
`serial.OpenPort` either fails or leaves the port open. -/
def initSerial (parity : String) (openSerialOk : Bool) (st : ServerRes) :
    ServerRes × Option StartErr :=
  if parity ≠ "N" ∧ parity ≠ "E" ∧ parity ≠ "O" then (st, some .invalidParity)
  else if ¬ openSerialOk then (st, some .openSerialFailed)
  else ({ st with serialOpen := true }, none)

/-- `NtripServer.Start`: `initSerial`, then `net.Listen`; on listen
failure the error is returned with no cleanup of the serial port; on
success both background tasks are spawned. -/
def start (parity : String) (openSerialOk listenOk : Bool) (st : ServerRes) :
    ServerRes × Option StartErr :=
  match initSerial parity openSerialOk st with
  | (st1, some e) => (st1, some e)
  | (st1, none) =>
    if ¬ listenOk then (st1, some .listenFailed)
    else ({ st1 with listenerOpen := true, readTaskStarted := true, acceptTaskStarted := true }, none)

/-! ## Server side: the broadcast round

`readSerialData` (server source lines 105-125) loops forever: read from
the serial port; on error, log and `continue`; on data, iterate the
clients map writing the chunk, closing and deleting any client whose
write fails.  Connections are modelled as `Nat`; the registry as a
`List Nat`; per-round write success as a predicate on connections. -/

/-- Result of one broadcast pass over the registry, in registry order:
the surviving registry, the connections that received the chunk, and
the connections closed-and-removed because their write failed. -/
structure BroadcastRes where
  surviving : List Nat
  delivered : List Nat
  removed : List Nat
deriving DecidableEq, Repr

/-- One pass of the inner `for conn := range s.clients` loop (server
source lines 116-123): each connection gets one write attempt; a failed
write closes the connection and deletes it from the registry, and the
iteration moves on to the rest. -/
def broadcast (writeOk : Nat → Bool) : List Nat → BroadcastRes
  | [] => ⟨[], [], []⟩
  | c :: rest =>
    if writeOk c then
      ⟨c :: (broadcast writeOk rest).surviving, c :: (broadcast writeOk rest).delivered,
        (broadcast writeOk rest).removed⟩
    else
      ⟨(broadcast writeOk rest).surviving, (broadcast writeOk rest).delivered,
        c :: (broadcast writeOk rest).removed⟩

/-- One event seen by the serial-read loop: a read error, or a chunk
together with that round's per-connection write outcomes. -/
inductive SerialEv where
  | readErr : SerialEv
  | readData : List Nat → (Nat → Bool) → SerialEv

/-- The serial-read loop `readSerialData` over a finite script of read
events, returning the delivery log: each `(conn, chunk)` pair records
one successful write of `chunk` to `conn`.  A read error logs and
continues with the registry unchanged — the loop does not exit. -/
def readSerialData : List SerialEv → List Nat → List (Nat × List Nat)
  | [], _ => []
  | SerialEv.readErr :: rest, clients => readSerialData rest clients
  | SerialEv.readData chunk writeOk :: rest, clients =>
    let r := broadcast writeOk clients
    r.delivered.map (fun c => (c, chunk)) ++ readSerialData rest r.surviving

/-! ## Server side: the per-connection handler

`handleClient` (server source lines 140-164) first writes the greeting
`ICY 200 OK\r\n`, then loops reading one byte at a time purely to
detect disconnect; the deferred block closes the connection and removes
it from the registry.  The handler's observable behaviour is its
sequence of socket/registry actions. -/

/-- One action of the per-connection handler task. -/
inductive HandlerAct where
  | writeGreeting
  | readByte
  | closeConn
  | deregister
deriving DecidableEq, Repr

/-- The action trace of `handleClient`, given whether the greeting
write succeeds and how many reads succeed before the read loop hits an
error (the failing read attempt included in the trace).  In every case
the first socket action is the greeting write — nothing is read from
the connection before it. -/
def handleClientActs (greetingOk : Bool) (okReads : Nat) : List HandlerAct :=
  if greetingOk then
    HandlerAct.writeGreeting ::
      (List.replicate (okReads + 1) HandlerAct.readByte ++
        [HandlerAct.closeConn, HandlerAct.deregister])
  else [HandlerAct.writeGreeting, HandlerAct.closeConn, HandlerAct.deregister]

/-- In a handler trace, some byte is read from the connection strictly
before the greeting is written: scanning in order, a `readByte` shows
up before the first `writeGreeting`. -/
def readBeforeGreeting : List HandlerAct → Bool
  | [] => false
  | HandlerAct.readByte :: _ => true
  | HandlerAct.writeGreeting :: _ => false
  | _ :: rest => readBeforeGreeting rest

/-! ## Server side: interleaving of the concurrent tasks

The server runs one accept task (`acceptConnections`, lines 127-138),
one broadcast task (`readSerialData`, lines 105-125) and one handler
task per connection (`handleClient`, lines 140-164).  None of them
takes a lock: the `clients` map is touched by all of them directly.
The transition system below interleaves the tasks' atomic actions
freely, exactly because the source has no synchronization around the
registry:

* `acceptConn c` — the accept task registers `c` (`s.clients[conn] =
  true`, line 135) and spawns its handler;
* `greet c` — `c`'s handler task writes the greeting (line 148);
* `serialRead k` — the broadcast task returns from `s.serial.Read`
  with chunk `k` and begins iterating the registry (lines 108-116);
* `deliverNext` — the broadcast task writes the current chunk to the
  next connection of its iteration (line 117);
* `disconnect c` — `c`'s handler task sees its read fail and runs the
  deferred close-and-delete (lines 141-144).

The state records the event log and a `raced` flag set whenever a
registry mutation happens while the broadcast task is mid-iteration —
the unsynchronized iterate-while-mutate the spec rules out. -/

/-- An observable event of the interleaved server. -/
inductive SrvEv where
  | acceptConn : Nat → SrvEv
  | greet : Nat → SrvEv
  | beginRound : Nat → SrvEv
  | deliver : Nat → Nat → SrvEv
  | disconnect : Nat → SrvEv
deriving DecidableEq, Repr

/-- One atomic action of one of the server's tasks. -/
inductive SrvCmd where
  | acceptConn : Nat → SrvCmd
  | greet : Nat → SrvCmd
  | serialRead : Nat → SrvCmd
  | deliverNext : SrvCmd
  | disconnect : Nat → SrvCmd
deriving DecidableEq, Repr

/-- The interleaved server state: the shared registry, the handlers
spawned but not yet greeted, the broadcast task's in-progress iteration
(remaining connections and current chunk), the event log, and whether a
registry mutation has raced a live iteration. -/
structure SrvState where
  clients : List Nat
  pendingGreet : List Nat
  roundRem : Option (List Nat × Nat)
  log : List SrvEv
  raced : Bool
deriving DecidableEq, Repr

/-- The server state right after `Start`: empty registry, no handler,
no broadcast round in progress. -/
def SrvState.started : SrvState := ⟨[], [], none, [], false⟩

/-- One interleaving step.  Registration precedes greeting (line 135
runs before the spawned handler's line 148), a broadcast round iterates
the registry as it was when the round began, and any `acceptConn` or
`disconnect` mutation while `roundRem` is live sets `raced` — no lock
in the source prevents that interleaving. -/
def srvStep (s : SrvState) : SrvCmd → SrvState
  | SrvCmd.acceptConn c =>
    if c ∈ s.clients then s
    else
      { s with
          clients := s.clients ++ [c]
          pendingGreet := s.pendingGreet ++ [c]
          log := s.log ++ [SrvEv.acceptConn c]
          raced := s.raced || s.roundRem.isSome }
  | SrvCmd.greet c =>
    if c ∈ s.pendingGreet then
      { s with pendingGreet := s.pendingGreet.erase c, log := s.log ++ [SrvEv.greet c] }
    else s
  | SrvCmd.serialRead k =>
    match s.roundRem with
    | some _ => s
    | none => { s with roundRem := some (s.clients, k), log := s.log ++ [SrvEv.beginRound k] }
  | SrvCmd.deliverNext =>
    match s.roundRem with
    | none => s
    | some ([], _) => { s with roundRem := none }
    | some (c :: rest, k) =>
      { s with roundRem := some (rest, k), log := s.log ++ [SrvEv.deliver c k] }
  | SrvCmd.disconnect c =>
    if c ∈ s.clients then
      { s with
          clients := s.clients.erase c
          log := s.log ++ [SrvEv.disconnect c]
          raced := s.raced || s.roundRem.isSome }
    else s

/-- Run a script of interleaved task actions from the post-`Start`
state. -/
def srvRun (cmds : List SrvCmd) : SrvState :=
  cmds.foldl srvStep SrvState.started

/-- In log `l`, a relay chunk was written to connection `c` before any
greeting was written to `c`: scanning the log in order, a `deliver` to
`c` shows up strictly before the first `greet` of `c` (if any). -/
def deliveredBeforeGreet (c : Nat) : List SrvEv → Bool
  | [] => false
  | SrvEv.deliver c' _ :: rest =>
    if c' = c then true else deliveredBeforeGreet c rest
  | SrvEv.greet c' :: rest =>
    if c' = c then false else deliveredBeforeGreet c rest
  | _ :: rest => deliveredBeforeGreet c rest

/-! ## Helper lemmas about the broadcast pass -/

/-- A connection whose write succeeds is delivered to and survives the
pass. -/
theorem broadcast_mem_of_writeOk (writeOk : Nat → Bool) (clients : List Nat) (b : Nat)
    (hb : b ∈ clients) (hob : writeOk b = true) :
    b ∈ (broadcast writeOk clients).delivered ∧ b ∈ (broadcast writeOk clients).surviving := by
  induction clients with
  | nil => cases hb
  | cons c rest ih =>
    rcases List.mem_cons.mp hb with h | h
    · subst h
      simp [broadcast, hob]
    · rcases ih h with ⟨h1, h2⟩
      by_cases hc : writeOk c = true <;>
        simp [broadcast, hc, h1, h2]

/-- Every survivor of a broadcast pass had a successful write. -/
theorem broadcast_surviving_writeOk (writeOk : Nat → Bool) (clients : List Nat) :
    ∀ x ∈ (broadcast writeOk clients).surviving, writeOk x = true := by
  induction clients with
  | nil => intro x hx; cases hx
  | cons c rest ih =>
    intro x hx
    by_cases hc : writeOk c = true
    · simp [broadcast, hc] at hx
      rcases hx with h | h
      · subst h; exact hc
      · exact ih x h
    · simp [broadcast, hc] at hx
      exact ih x hx

/-- A connection whose write fails is closed and removed by the pass. -/
theorem broadcast_mem_removed (writeOk : Nat → Bool) (clients : List Nat) (a : Nat)
    (ha : a ∈ clients) (hfa : writeOk a = false) :
    a ∈ (broadcast writeOk clients).removed := by
  induction clients with
  | nil => cases ha
  | cons c rest ih =>
    rcases List.mem_cons.mp ha with h | h
    · subst h
      simp [broadcast, hfa]
    · by_cases hc : writeOk c = true <;> simp [broadcast, hc, ih h]

/-! ## The claims -/

/-- C1: the claim that every mutation of the subscriber registry and
every broadcast-round iteration over it are serialized under a single
mutual-exclusion mechanism fails on the code: no lock exists, and in
the interleaved semantics of the three task kinds an `acceptConn`
mutation of `clients` is reachable while the broadcast task is
mid-iteration, which sets the `raced` flag. -/
theorem c1_registry_race_reachable :
    (srvRun [SrvCmd.acceptConn 1, SrvCmd.serialRead 7, SrvCmd.acceptConn 2]).raced = true := by
  decide

/-- C2 counterexample: the claim that a serial read error terminates
the broadcast loop fails on the code: after a read error the loop
`continue`s, and a chunk arriving after the error is still broadcast —
here connection `0` receives chunk `[7]` from an event that follows the
error. -/
theorem c2_error_not_fatal :
    readSerialData [SerialEv.readErr, SerialEv.readData [7] (fun _ => true)] [0] =
      [(0, [7])] ∧
    readSerialData [SerialEv.readErr, SerialEv.readData [7] (fun _ => true)] [0] ≠ [] := by
  refine ⟨rfl, ?_⟩
  simp [readSerialData, broadcast]

/-- C2 amended: a serial read error is logged and the loop continues
with the registry unchanged; the remaining read events are processed
exactly as if the error had not occurred, and the loop does not exit. -/
theorem c2_error_skips_round (events : List SerialEv) (clients : List Nat) :
    readSerialData (SerialEv.readErr :: events) clients = readSerialData events clients :=
  rfl

/-- C3: the claim that the Authorization header value is
`base64(user:pass)` fails on the code: at username `alice`, password
`secret`, the request carries `Authorization: Basic alice:secret` — the
raw colon-joined credentials — while base64 of `alice:secret` is
`YWxpY2U6c2VjcmV0`, a different string.  (The presence condition —
header iff both credentials non-empty — does hold.) -/
theorem c3_auth_value_not_base64 :
    buildRequest "RTCM3" "alice" "secret" =
      "GET /RTCM3 HTTP/1.0\r\nAuthorization: Basic alice:secret\r\nUser-Agent: NTRIP Client\r\nConnection: close\r\n\r\n" ∧
    base64Encode (strBytes (authValue "alice" "secret")) = "YWxpY2U6c2VjcmV0" ∧
    authValue "alice" "secret" ≠ "YWxpY2U6c2VjcmV0" := by
  refine ⟨?_, ?_, ?_⟩ <;> decide

/-- C4: the claim that no interleaving delivers a source chunk to a
subscriber before its greeting has been written fails on the code: the
accept task registers the connection before its handler writes the
greeting, so the broadcast task can deliver a chunk first — in this
reachable interleaving connection `1` receives chunk `7` and no
greeting for `1` precedes it in the event log. -/
theorem c4_chunk_before_greeting :
    (srvRun [SrvCmd.acceptConn 1, SrvCmd.serialRead 7, SrvCmd.deliverNext]).log =
      [SrvEv.acceptConn 1, SrvEv.beginRound 7, SrvEv.deliver 1 7] ∧
    deliveredBeforeGreet 1
      (srvRun [SrvCmd.acceptConn 1, SrvCmd.serialRead 7, SrvCmd.deliverNext]).log = true := by
  decide

/-- C5: when the first response read yields at least three bytes and
they are not `ICY`, `Connect` returns the protocol error, the deferred
close leaves the connection closed, and nothing is written to the
output file or to stdout. -/
theorem c5_bad_greeting_rejected (out : String) (env : ConnectEnv) (fs0 : FS)
    (resp : List Nat) (hdial : env.dialOk = true) (hcreate : env.createOk = true)
    (hwrite : env.writeReqOk = true) (hread : env.readResp = some resp)
    (hlen : 3 ≤ resp.length) (hicy : resp.take 3 ≠ icyMarker) :
    (connect out env fs0).outcome = ConnectOutcome.errBadResp ∧
    (connect out env fs0).connClosed = true ∧
    (connect out env fs0).sinkWrites = [] ∧
    (connect out env fs0).stdoutWrites = [] := by
  simp [connect, hdial, hcreate, hwrite, hread, Nat.not_lt.mpr hlen, hicy]

/-- C5 witness: a concrete run with response `HTTP` is rejected with
nothing written to either sink. -/
theorem c5_bad_greeting_rejected_witness :
    (connect "out" ⟨true, true, true, some [72, 84, 84, 80], true, true, []⟩ ⟨[]⟩).outcome =
      ConnectOutcome.errBadResp ∧
    (connect "out" ⟨true, true, true, some [72, 84, 84, 80], true, true, []⟩ ⟨[]⟩).connClosed =
      true ∧
    (connect "out" ⟨true, true, true, some [72, 84, 84, 80], true, true, []⟩ ⟨[]⟩).sinkWrites =
      [] ∧
    (connect "out" ⟨true, true, true, some [72, 84, 84, 80], true, true, []⟩ ⟨[]⟩).stdoutWrites =
      [] :=
  c5_bad_greeting_rejected "out" ⟨true, true, true, some [72, 84, 84, 80], true, true, []⟩
    ⟨[]⟩ [72, 84, 84, 80] rfl rfl rfl rfl (by decide) (by decide)

/-- C6: within one broadcast round, a subscriber whose write fails is
the only one affected — it is removed (closed) and drops out of the
registry, while every other subscriber whose write succeeds still
receives the chunk and stays registered. -/
theorem c6_write_failure_isolated (clients : List Nat) (writeOk : Nat → Bool) (a b : Nat)
    (ha : a ∈ clients) (hfa : writeOk a = false)
    (hb : b ∈ clients) (hob : writeOk b = true) :
    b ∈ (broadcast writeOk clients).delivered ∧
    b ∈ (broadcast writeOk clients).surviving ∧
    a ∉ (broadcast writeOk clients).surviving ∧
    a ∈ (broadcast writeOk clients).removed := by
  rcases broadcast_mem_of_writeOk writeOk clients b hb hob with ⟨h1, h2⟩
  refine ⟨h1, h2, ?_, broadcast_mem_removed writeOk clients a ha hfa⟩
  intro hmem
  have := broadcast_surviving_writeOk writeOk clients a hmem
  rw [hfa] at this
  cases this

/-- C6 witness: in the round over `[0, 1, 2]` where only `1`'s write
fails, `2` is delivered to and survives while `1` is removed. -/
theorem c6_write_failure_isolated_witness :
    2 ∈ (broadcast (fun c => c != 1) [0, 1, 2]).delivered ∧
    2 ∈ (broadcast (fun c => c != 1) [0, 1, 2]).surviving ∧
    1 ∉ (broadcast (fun c => c != 1) [0, 1, 2]).surviving ∧
    1 ∈ (broadcast (fun c => c != 1) [0, 1, 2]).removed :=
  c6_write_failure_isolated [0, 1, 2] (fun c => c != 1) 1 2 (by decide) rfl (by decide) rfl

/-- C7 counterexample: the claim that the server reads the client's
request line before writing the greeting fails on the code: the handler
trace starts with the greeting write, so no read precedes it — shown
here on the trace with a successful greeting and a single read
attempt. -/
theorem c7_no_read_before_greeting :
    readBeforeGreeting (handleClientActs true 0) = false ∧
    (handleClientActs true 0).head? = some HandlerAct.writeGreeting := by
  decide

/-- C7 amended: the server never reads from the connection before the
greeting: in every handler trace the greeting write is the first socket
action, and client bytes are read (and discarded) only afterwards, in
the keep-alive loop. -/
theorem c7_greeting_is_first_action (greetingOk : Bool) (okReads : Nat) :
    (handleClientActs greetingOk okReads).head? = some HandlerAct.writeGreeting ∧
    readBeforeGreeting (handleClientActs greetingOk okReads) = false := by
  cases greetingOk <;> simp [handleClientActs, readBeforeGreeting]

/-- C8: when the first response read returns fewer than three bytes,
the greeting check `response[:3]` is out of range and `Connect` ends in
the slice panic rather than an error return. -/
theorem c8_short_response_panics (out : String) (env : ConnectEnv) (fs0 : FS)
    (resp : List Nat) (hdial : env.dialOk = true) (hcreate : env.createOk = true)
    (hwrite : env.writeReqOk = true) (hread : env.readResp = some resp)
    (hlen : resp.length < 3) :
    (connect out env fs0).outcome = ConnectOutcome.panicSlice := by
  simp [connect, hdial, hcreate, hwrite, hread, hlen]

/-- C8 witness: a one-byte response (`I` alone) makes `Connect`
panic. -/
theorem c8_short_response_panics_witness :
    (connect "out" ⟨true, true, true, some [73], true, true, []⟩ ⟨[]⟩).outcome =
      ConnectOutcome.panicSlice :=
  c8_short_response_panics "out" ⟨true, true, true, some [73], true, true, []⟩ ⟨[]⟩ [73]
    rfl rfl rfl rfl (by decide)

/-- C9: `Connect` creates (truncating) the output file before the
handshake completes, so after a failed handshake — request-write error,
response-read error, or a non-`ICY` response — the output file exists on
disk with empty content. -/
theorem c9_empty_file_after_failed_handshake (out : String) (env : ConnectEnv) (fs0 : FS)
    (hdial : env.dialOk = true) (hcreate : env.createOk = true)
    (hfail : env.writeReqOk = false ∨ env.readResp = none ∨
      ∃ resp, env.readResp = some resp ∧ 3 ≤ resp.length ∧ resp.take 3 ≠ icyMarker) :
    (connect out env fs0).fs.lookup out = some [] := by
  rcases hfail with h | h | ⟨resp, hr, hlen, hicy⟩
  · simp [connect, hdial, hcreate, h, FS.create, FS.lookup]
  · by_cases hw : env.writeReqOk = true
    · simp [connect, hdial, hcreate, hw, h, FS.create, FS.lookup]
    · simp only [Bool.not_eq_true] at hw
      simp [connect, hdial, hcreate, hw, FS.create, FS.lookup]
  · by_cases hw : env.writeReqOk = true
    · simp [connect, hdial, hcreate, hw, hr, Nat.not_lt.mpr hlen, hicy, FS.create, FS.lookup]
    · simp only [Bool.not_eq_true] at hw
      simp [connect, hdial, hcreate, hw, FS.create, FS.lookup]

/-- C9 witness: with a pre-existing non-empty `out` file and a failing
request write, the run leaves `out` existing and empty (truncated). -/
theorem c9_empty_file_after_failed_handshake_witness :
    (connect "out" ⟨true, true, false, none, true, true, []⟩ ⟨[("out", [9])]⟩).fs.lookup
      "out" = some [] :=
  c9_empty_file_after_failed_handshake "out" ⟨true, true, false, none, true, true, []⟩
    ⟨[("out", [9])]⟩ rfl rfl (Or.inl rfl)

/-- C10: when the parity letter is valid, the serial port opens, and
the TCP listen fails, `Start` returns the listen error while the serial
port remains open — no path closes it on that error. -/
theorem c10_serial_left_open (parity : String) (st : ServerRes)
    (hp : ¬(parity ≠ "N" ∧ parity ≠ "E" ∧ parity ≠ "O")) :
    (start parity true false st).2 = some StartErr.listenFailed ∧
    (start parity true false st).1.serialOpen = true := by
  simp [start, initSerial, hp]

/-- C10 witness: parity `N`, serial open succeeding, listen failing:
the error is returned and the serial port is still open. -/
theorem c10_serial_left_open_witness :
    (start "N" true false ServerRes.idle).2 = some StartErr.listenFailed ∧
    (start "N" true false ServerRes.idle).1.serialOpen = true :=
  c10_serial_left_open "N" ServerRes.idle (by decide)

end NTrip
